import Mathlib

set_option maxHeartbeats 1000000

/- Verification of lib/ecs/run_oneoff_task.py: a shallow embedding of its
configuration resolver, override merger, launch-request builder and result
summarizer, followed by theorems about the embedded definitions.

Python strings are Lean `String`s; `str.strip` / `str.upper` / `str.replace`
are modelled character-by-character on `String.data`; the process environment
is a partial map `Env := String → Option String`; `die(msg)` and uncaught
exceptions are modelled as `Except.error msg` (both terminate the process
before anything later in the pipeline runs). -/

/-- The process environment: `os.environ.get`. -/
def Env : Type := String → Option String

/-- `e` with the key `k` absent (used to compare "key set" against "key unset"). -/
def removeKey (e : Env) (k : String) : Env :=
  fun n => if n = k then none else e n

/-- Python `str.strip()` on the leading side of a char list. -/
def dropWS (cs : List Char) : List Char :=
  cs.dropWhile Char.isWhitespace

/-- Python `str.strip()`: whitespace removed from both ends. -/
def pytrimChars (cs : List Char) : List Char :=
  ((cs.dropWhile Char.isWhitespace).reverse.dropWhile Char.isWhitespace).reverse

/-- Python `v.strip()` on a string. -/
def pystrip (s : String) : String :=
  String.mk (pytrimChars s.data)

/-- Python `v.upper()` (ASCII, as in the source's inputs). -/
def pyupper (s : String) : String :=
  String.mk (s.data.map Char.toUpper)

/-- Python truthiness of an optional string: `None` and `""` are falsy. -/
def truthyStr (v : Option String) : Bool :=
  match v with
  | none => false
  | some s => s ≠ ""

/-- Python `x or d` for an optional string `x` and string default `d`. -/
def pyOr (x : Option String) (d : String) : String :=
  match x with
  | none => d
  | some s => if s = "" then d else s

/-- `env(name, default)` from the source: `v.strip()` when the variable is
set, the default otherwise. -/
def env (e : Env) (name : String) (default : Option String) : Option String :=
  match e name with
  | some v => some (pystrip v)
  | none => default

/-- `v.replace(" ", "")`: every space character removed. -/
def removeSpaces (cs : List Char) : List Char :=
  cs.filter (fun c => c ≠ ' ')

/-- Python `s.split(",")` on a char list: separator-delimited segments, empty
segments kept (`"".split(",") == [""]`). -/
def splitComma : List Char → List (List Char)
  | [] => [[]]
  | c :: cs =>
    if c = ',' then [] :: splitComma cs
    else
      match splitComma cs with
      | r :: rs => (c :: r) :: rs
      | [] => [[c]]

/-- `split_csv` from the source: `[x for x in (v or "").replace(" ", "").split(",") if x]`. -/
def split_csv (v : Option String) : List String :=
  ((splitComma (removeSpaces (v.getD "").data)).map String.mk).filter (fun s => s ≠ "")

/-- Modelled from the spec's words, for comparison with `split_csv`: the spec
says the comma-separated list is "trimmed" per entry ("lists are
comma-separated, trimmed, empty entries discarded"). -/
def split_csv_spec (v : Option String) : List String :=
  ((splitComma (v.getD "").data).map (fun cs => String.mk (pytrimChars cs))).filter
    (fun s => s ≠ "")

/-- Python `", ".join(l)`. -/
def joinComma : List String → String
  | [] => ""
  | [x] => x
  | x :: y :: t => x ++ ", " ++ joinComma (y :: t)

/-- `pat` occurs as a contiguous substring of `s` (used to state that an
error message names a key, a target or an index). -/
def containsStr (pat s : String) : Prop :=
  ∃ l r, s.data = l ++ pat.data ++ r

/-- Python `set(...)` over a list of strings: duplicates removed. -/
def dedupStr : List String → List String
  | [] => []
  | x :: xs =>
    let r := dedupStr xs
    if x ∈ r then r else x :: r

/-- Lexicographic-or-equal test used by the insertion sort below. -/
def leStr (a b : String) : Bool :=
  !(decide (b < a))

/-- Insert into a sorted list of strings. -/
def insertLe (x : String) : List String → List String
  | [] => [x]
  | y :: ys => if leStr x y then x :: y :: ys else y :: insertLe x ys

/-- Python `sorted(...)` over a list of strings. -/
def sortStr : List String → List String :=
  List.foldr insertLe []

-- -------------------------
-- Data model
-- -------------------------

/-- One element of the task definition's `containerDefinitions`. -/
structure ContainerDef where
  name : String
deriving DecidableEq

/-- The task definition snapshot fetched from the control plane. -/
structure TaskDefinition where
  containerDefinitions : List ContainerDef
deriving DecidableEq

/-- The set of container names declared by the task definition
(`{c["name"] for c in task_def.get("containerDefinitions", [])}`). -/
def containerNames (td : TaskDefinition) : List String :=
  td.containerDefinitions.map ContainerDef.name

/-- One `{name, value}` environment entry of an override. -/
structure EnvPair where
  name : String
  value : String
deriving DecidableEq

/-- The JSON value found under an override entry's `environment` key: either a
JSON array, or any non-array value carrying only its Python truthiness. -/
inductive EnvVal where
  | list (xs : List EnvPair)
  | other (truthy : Bool)
deriving DecidableEq

/-- One element of the user-supplied overrides array. `target_container_name`
is `none` when the key is absent. -/
structure OverrideItem where
  target_container_name : Option String
  environment : Option EnvVal
deriving DecidableEq

/-- Python truthiness of `item.get("environment")`. -/
def envTruthy : Option EnvVal → Bool
  | none => false
  | some (.list xs) => !xs.isEmpty
  | some (.other t) => t

/-- The override entry's `environment` is present, truthy and not a list: the
one shape `build_ecs_overrides` rejects. -/
def envBad (it : OverrideItem) : Prop :=
  it.environment = some (EnvVal.other true)

/-- One `{name, environment}` element of the built `containerOverrides`. -/
structure ContainerOverride where
  name : String
  environment : List EnvPair
deriving DecidableEq

/-- The dict returned by `build_ecs_overrides` when it does not return `None`. -/
structure EcsOverrides where
  containerOverrides : List ContainerOverride
deriving DecidableEq

/-- The resolved network placement returned by `load_network`. -/
structure NetworkResolved where
  subnets : List String
  sgs : List String
  assign : String
deriving DecidableEq

/-- The `awsvpcConfiguration` payload. -/
structure AwsvpcConfiguration where
  subnets : List String
  securityGroups : List String
  assignPublicIp : String
deriving DecidableEq

/-- The network configuration dict built by `build_network_configuration`. -/
structure NetworkConf where
  awsvpcConfiguration : AwsvpcConfiguration
deriving DecidableEq

/-- The keyword arguments `run_task` passes to `ecs.run_task`: `overrides` is
`none` exactly when the params dict carries no `overrides` key. -/
structure RunParams where
  cluster : String
  launchType : String
  taskDefinition : String
  enableExecuteCommand : Bool
  networkConfiguration : NetworkConf
  overrides : Option EcsOverrides
deriving DecidableEq

-- -------------------------
-- Config loaders
-- -------------------------

/-- The three required environment variables of `load_required`. -/
def required_env_vars : List String :=
  ["task_definition_name", "ecs_cluster_name", "aws_region"]

/-- The required keys whose values are absent or falsy in `e`
(`[k for k in required if not env(k)]`). -/
def missing_required (e : Env) : List String :=
  required_env_vars.filter (fun k => !truthyStr (env e k none))

/-- `load_required` from the source: every required key whose value is absent
or falsy is collected, and one error names them all; otherwise the key/value
pairs are returned. -/
def load_required (e : Env) : Except String (List (String × String)) :=
  if (missing_required e).isEmpty then
    .ok (required_env_vars.map (fun k => (k, (env e k none).getD "")))
  else
    .error ("❌ Missing required env vars: " ++ joinComma (missing_required e))

/-- `subnets_raw = env("subnets", env("subnet_id",""))` from `load_network`. -/
def subnets_raw (e : Env) : Option String :=
  env e "subnets" (env e "subnet_id" (some ""))

/-- `sgs_raw = env("security_groups", env("sg_id",""))` from `load_network`. -/
def sgs_raw (e : Env) : Option String :=
  env e "security_groups" (env e "sg_id" (some ""))

/-- `assign = (env("assign_public_ip","DISABLED") or "DISABLED").upper()`. -/
def assign_resolved (e : Env) : String :=
  pyupper (pyOr (env e "assign_public_ip" (some "DISABLED")) "DISABLED")

/-- `load_network` from the source. -/
def load_network (e : Env) : Except String NetworkResolved :=
  if assign_resolved e ≠ "ENABLED" ∧ assign_resolved e ≠ "DISABLED" then
    .error "❌ assign_public_ip must be ENABLED or DISABLED"
  else if (split_csv (subnets_raw e)).isEmpty then
    .error "❌ No subnets provided. Set 'subnets' or legacy 'subnet_id'."
  else if (split_csv (sgs_raw e)).isEmpty then
    .error "❌ No security groups provided. Set 'security_groups' or legacy 'sg_id'."
  else
    .ok { subnets := split_csv (subnets_raw e), sgs := split_csv (sgs_raw e),
          assign := assign_resolved e }

-- -------------------------
-- Overrides handling
-- -------------------------

/-- The message of `die(f"❌ overrides[{i}] missing 'target_container_name'")`. -/
def missingTargetMsg (i : Nat) : String :=
  "❌ overrides[" ++ toString i ++ "] missing 'target_container_name'"

/-- The message of the unknown-target `die` in `validate_overrides_targets`:
it names the offending target and joins the sorted set of known names. -/
def unknownTargetMsg (tgt : String) (names : List String) : String :=
  "❌ target_container_name '" ++
    (tgt ++ ("' not found in task definition containers: " ++
      joinComma (sortStr (dedupStr names))))

/-- The loop of `validate_overrides_targets`, carrying the 1-based index `i`
of `enumerate(overrides, start=1)`. -/
def validate_aux (names : List String) (i : Nat) : List OverrideItem → Except String Unit
  | [] => .ok ()
  | item :: rest =>
    let tgt := item.target_container_name.getD ""
    if tgt = "" then .error (missingTargetMsg i)
    else if tgt ∉ names then .error (unknownTargetMsg tgt names)
    else validate_aux names (i + 1) rest

/-- `validate_overrides_targets` from the source. -/
def validate_overrides_targets (task_def : TaskDefinition) (overrides : List OverrideItem) :
    Except String Unit :=
  validate_aux (containerNames task_def) 1 overrides

/-- The message of `die(f"❌ overrides[{i}].environment must be an array")`. -/
def envNotArrayMsg (i : Nat) : String :=
  "❌ overrides[" ++ toString i ++ "].environment must be an array"

/-- The loop of `build_ecs_overrides`: an entry with a truthy list
`environment` is converted and kept, an entry with a falsy `environment` is
skipped, a truthy non-list `environment` dies; a missing
`target_container_name` key raises `KeyError` (terminal, like `die`). -/
def build_aux (i : Nat) : List OverrideItem → Except String (List ContainerOverride)
  | [] => .ok []
  | item :: rest =>
    match item.target_container_name with
    | none => .error "KeyError: 'target_container_name'"
    | some tgt =>
      if envTruthy item.environment then
        match item.environment with
        | some (.list xs) =>
          match build_aux (i + 1) rest with
          | .ok conv => .ok ({ name := tgt, environment := xs } :: conv)
          | .error e => .error e
        | _ => .error (envNotArrayMsg i)
      else build_aux (i + 1) rest

/-- `build_ecs_overrides` from the source: `None` for an empty input list,
otherwise the dict `{"containerOverrides": conv}` — even when `conv` is empty. -/
def build_ecs_overrides (overrides : List OverrideItem) :
    Except String (Option EcsOverrides) :=
  if overrides.isEmpty then .ok none
  else
    match build_aux 1 overrides with
    | .ok conv => .ok (some { containerOverrides := conv })
    | .error e => .error e

/-- The contribution of one override entry to the built `containerOverrides`:
`none` exactly when the loop of `build_ecs_overrides` drops the entry. -/
def convEntry (it : OverrideItem) : Option ContainerOverride :=
  match it.target_container_name, it.environment with
  | some t, some (.list xs) => if xs.isEmpty then none else some { name := t, environment := xs }
  | _, _ => none

-- -------------------------
-- Run task
-- -------------------------

/-- `build_network_configuration` from the source. -/
def build_network_configuration (subnets sgs : List String) (assign : String) : NetworkConf :=
  { awsvpcConfiguration :=
      { subnets := subnets, securityGroups := sgs, assignPublicIp := assign } }

/-- The params dict `run_task` submits: `if overrides: params["overrides"] =
overrides` — a non-`None` result of `build_ecs_overrides` always holds the
`containerOverrides` key, hence is a truthy dict and is always attached. -/
def run_task_params (cluster task_def : String) (network : NetworkConf)
    (overrides : Option EcsOverrides) : RunParams :=
  { cluster := cluster
    launchType := "FARGATE"
    taskDefinition := task_def
    enableExecuteCommand := true
    networkConfiguration := network
    overrides :=
      match overrides with
      | some o => some o
      | none => none }

/-- The tail of `main` after the read-only resource checks: validate targets
(only when the override list is truthy), build the overrides and the network
configuration, and produce the `run_task` params. A `.error` means the
process died before `ecs.run_task` was invoked. -/
def pipelineParams (td : TaskDefinition) (net : NetworkResolved)
    (ov : List OverrideItem) (cluster task_def : String) : Except String RunParams :=
  match (if ov.isEmpty then .ok () else validate_overrides_targets td ov) with
  | .error e => .error e
  | .ok _ =>
    match build_ecs_overrides ov with
    | .error e => .error e
    | .ok eo =>
      .ok (run_task_params cluster task_def
        (build_network_configuration net.subnets net.sgs net.assign) eo)

-- -------------------------
-- Result summarizer
-- -------------------------

/-- A container's slice of a task in the launch response. -/
structure ContainerState where
  name : Option String
  lastStatus : Option String
deriving DecidableEq

/-- One element of the launch response's `tasks`. -/
structure EcsTask where
  taskArn : Option String
  lastStatus : Option String
  desiredStatus : Option String
  launchType : Option String
  platformVersion : Option String
  createdAt : Option String
  startedAt : Option String
  containers : List ContainerState
deriving DecidableEq

/-- One element of the launch response's `failures`, echoed verbatim. -/
structure Failure where
  arn : Option String
  reason : Option String
deriving DecidableEq

/-- The raw `ecs.run_task` response: absent lists read as `[]` by
`resp.get("tasks", [])` / `resp.get("failures", [])`. -/
structure RunResponse where
  tasks : List EcsTask
  failures : List Failure
deriving DecidableEq

/-- The per-task record `summarize` prints for a started task. -/
structure TaskSummary where
  taskArn : Option String
  lastStatus : Option String
  desiredStatus : Option String
  launchType : Option String
  platformVersion : Option String
  createdAt : Option String
  startedAt : Option String
  containers : List ContainerState
deriving DecidableEq

/-- The projection `summarize` applies to each element of `tasks`. -/
def mkTaskSummary (t : EcsTask) : TaskSummary :=
  { taskArn := t.taskArn
    lastStatus := t.lastStatus
    desiredStatus := t.desiredStatus
    launchType := t.launchType
    platformVersion := t.platformVersion
    createdAt := t.createdAt
    startedAt := t.startedAt
    containers := t.containers.map (fun c => { name := c.name, lastStatus := c.lastStatus }) }

/-- The classification `summarize` makes of the raw response. -/
inductive LaunchOutcome where
  | started (tasks : List TaskSummary)
  | failed (failures : List Failure)
  | unknown (raw : RunResponse)
deriving DecidableEq

/-- `summarize` from the source: `if tasks: ... elif fails: ... else: ...`. -/
def summarize (resp : RunResponse) : LaunchOutcome :=
  if resp.tasks.isEmpty = false then .started (resp.tasks.map mkTaskSummary)
  else if resp.failures.isEmpty = false then .failed resp.failures
  else .unknown resp

/-- The process exit code each outcome produces: `sys.exit(1)` on the
failures-only branch, normal termination (exit 0) otherwise. -/
def exitCode : LaunchOutcome → Nat
  | .failed _ => 1
  | _ => 0

/-- What `summarize` writes to the error stream: the failure list on the
failures-only branch, nothing otherwise. -/
def errStream : LaunchOutcome → Option (List Failure)
  | .failed fs => some fs
  | _ => none

-- -------------------------
-- Predicates on override entries, and concrete inputs
-- -------------------------

/-- The entry passes both checks of `validate_overrides_targets`: its target
is truthy and is a declared container name. -/
def entryOk (names : List String) (it : OverrideItem) : Prop :=
  it.target_container_name.getD "" ≠ "" ∧ it.target_container_name.getD "" ∈ names

/-- The entry raises nothing in the loop of `build_ecs_overrides`: the
`target_container_name` key is present and `environment` is not a truthy
non-list. -/
def goodItem (it : OverrideItem) : Prop :=
  it.target_container_name.isSome = true ∧ ¬ envBad it

instance (names : List String) (it : OverrideItem) : Decidable (entryOk names it) :=
  inferInstanceAs (Decidable (_ ∧ _))

instance (it : OverrideItem) : Decidable (envBad it) :=
  inferInstanceAs (Decidable (_ = _))

instance (it : OverrideItem) : Decidable (goodItem it) :=
  inferInstanceAs (Decidable (_ ∧ _))

/-- Environment for the C2 counterexample: the primary key `subnets` is set to
the empty string while the legacy `subnet_id` holds a usable subnet. -/
def envPrimaryEmpty : Env := fun n =>
  if n = "subnets" then some "" else
  if n = "subnet_id" then some "subnet-aaa" else
  if n = "security_groups" then some "sg-1" else none

/-- Environment with primary keys set (and legacy keys also set, to be ignored). -/
def envPrimarySet : Env := fun n =>
  if n = "subnets" then some " subnet-a " else
  if n = "subnet_id" then some "subnet-b" else
  if n = "security_groups" then some "sg-a" else
  if n = "sg_id" then some "sg-b" else none

/-- Environment with only the legacy singular keys set. -/
def envLegacyOnly : Env := fun n =>
  if n = "subnet_id" then some "subnet-b" else
  if n = "sg_id" then some "sg-b" else none

/-- Environment with only `aws_region` of the three required keys set. -/
def envRegionOnly : Env := fun n =>
  if n = "aws_region" then some "eu-west-2" else none

/-- Environment for the C7 counterexample: `assign_public_ip` set to the empty
string, valid subnets and security groups. -/
def envAssignEmpty : Env := fun n =>
  if n = "subnets" then some "s" else
  if n = "security_groups" then some "g" else
  if n = "assign_public_ip" then some "" else none

/-- Environment with a mixed-case `assign_public_ip`. -/
def envAssignMixed : Env := fun n =>
  if n = "subnets" then some "s" else
  if n = "security_groups" then some "g" else
  if n = "assign_public_ip" then some "Enabled" else none

/-- Environment with an `assign_public_ip` that normalizes to neither
`ENABLED` nor `DISABLED`. -/
def envAssignBogus : Env := fun n =>
  if n = "subnets" then some "s" else
  if n = "security_groups" then some "g" else
  if n = "assign_public_ip" then some "sometimes" else none

/-- Environment with a whitespace-only `assign_public_ip`. -/
def envAssignBlank : Env := fun n =>
  if n = "subnets" then some "s" else
  if n = "security_groups" then some "g" else
  if n = "assign_public_ip" then some "   " else none

/-- A task definition declaring the single container `web`. -/
def tdWeb : TaskDefinition := { containerDefinitions := [{ name := "web" }] }

/-- The task definition of end-to-end scenario B: containers `web` and `sidecar2`. -/
def tdScenarioB : TaskDefinition :=
  { containerDefinitions := [{ name := "web" }, { name := "sidecar2" }] }

/-- A resolved network placement used by concrete launches. -/
def netSimple : NetworkResolved := { subnets := ["s"], sgs := ["g"], assign := "DISABLED" }

/-- An override list whose single entry targets `web` and carries no
`environment` key. -/
def ovNoEnv : List OverrideItem :=
  [{ target_container_name := some "web", environment := none }]

/-- The override list of scenario B: it targets the absent container `sidecar`. -/
def ovScenarioB : List OverrideItem :=
  [{ target_container_name := some "sidecar",
     environment := some (.list [{ name := "DEBUG", value := "true" }]) }]

/-- An override entry with no `target_container_name` key. -/
def ovNoTarget : List OverrideItem :=
  [{ target_container_name := none, environment := none }]

/-- An override entry whose `environment` is a truthy non-list value. -/
def ovBadEnv : List OverrideItem :=
  [{ target_container_name := some "web", environment := some (.other true) }]

/-- An override entry with a truthy list `environment`, preceded by one with
an absent `environment`. -/
def ovMixed : List OverrideItem :=
  [{ target_container_name := some "web", environment := none },
   { target_container_name := some "web",
     environment := some (.list [{ name := "DEBUG", value := "true" }]) }]

/-- A launch response holding one task. -/
def taskOne : EcsTask :=
  { taskArn := some "arn:aws:ecs:task/1", lastStatus := some "PROVISIONING",
    desiredStatus := some "RUNNING", launchType := some "FARGATE",
    platformVersion := some "1.4.0", createdAt := some "2024-01-01",
    startedAt := none,
    containers := [{ name := some "web", lastStatus := some "PENDING" }] }

/-- A placement failure entry. -/
def failureOne : Failure :=
  { arn := some "arn:aws:ecs:container-instance/1", reason := some "RESOURCE:MEMORY" }

/-- Scenario D's response: one task and one failure entry. -/
def respMixed : RunResponse := { tasks := [taskOne], failures := [failureOne] }

/-- Scenario C's response: zero tasks and one failure entry. -/
def respFailed : RunResponse := { tasks := [], failures := [failureOne] }

/-- A response with neither tasks nor failures. -/
def respEmpty : RunResponse := { tasks := [], failures := [] }

-- -------------------------
-- Helper lemmas
-- -------------------------

theorem sdata_append (a b : String) : (a ++ b).data = a.data ++ b.data := rfl

theorem containsStr_self (s : String) : containsStr s s :=
  ⟨[], [], by simp⟩

theorem containsStr_append_right (p s t : String) (h : containsStr p s) :
    containsStr p (s ++ t) := by
  obtain ⟨l, r, hs⟩ := h
  exact ⟨l, r ++ t.data, by rw [sdata_append, hs]; simp⟩

theorem containsStr_append_left (p s t : String) (h : containsStr p s) :
    containsStr p (t ++ s) := by
  obtain ⟨l, r, hs⟩ := h
  exact ⟨t.data ++ l, r, by rw [sdata_append, hs]; simp⟩

theorem mem_joinComma {x : String} : ∀ {l : List String}, x ∈ l → containsStr x (joinComma l)
  | [], h => absurd h (List.not_mem_nil x)
  | [y], h => by
    rcases List.mem_singleton.mp h with rfl
    simpa [joinComma] using containsStr_self x
  | y :: z :: t, h => by
    rcases List.mem_cons.mp h with rfl | h'
    · show containsStr x (x ++ ", " ++ joinComma (z :: t))
      exact containsStr_append_right _ _ _
        (containsStr_append_right _ _ _ (containsStr_self x))
    · show containsStr x (y ++ ", " ++ joinComma (z :: t))
      exact containsStr_append_left _ _ _ (mem_joinComma h')

theorem mem_dedupStr {x : String} : ∀ {l : List String}, x ∈ l → x ∈ dedupStr l
  | y :: ys, h => by
    rcases List.mem_cons.mp h with rfl | h'
    · by_cases hy : x ∈ dedupStr ys
      · simp [dedupStr, hy]
      · simp [dedupStr, hy]
    · have := mem_dedupStr h'
      by_cases hy : y ∈ dedupStr ys
      · simpa [dedupStr, hy] using this
      · simp [dedupStr, hy, this]

theorem mem_insertLe_of_mem {a x : String} : ∀ {l : List String}, a ∈ l → a ∈ insertLe x l
  | y :: ys, h => by
    by_cases hx : leStr x y
    · simp [insertLe, hx, h]
    · rcases List.mem_cons.mp h with rfl | h'
      · simp [insertLe, hx]
      · simp [insertLe, hx, mem_insertLe_of_mem h']

theorem self_mem_insertLe (x : String) : ∀ l : List String, x ∈ insertLe x l
  | [] => by simp [insertLe]
  | y :: ys => by
    by_cases hx : leStr x y
    · simp [insertLe, hx]
    · simp [insertLe, hx, self_mem_insertLe x ys]

theorem mem_sortStr {x : String} : ∀ {l : List String}, x ∈ l → x ∈ sortStr l
  | y :: ys, h => by
    rcases List.mem_cons.mp h with rfl | h'
    · exact self_mem_insertLe x (sortStr ys)
    · exact mem_insertLe_of_mem (mem_sortStr h')

theorem validate_aux_ok {names : List String} :
    ∀ {l : List OverrideItem} {i : Nat}, (∀ it ∈ l, entryOk names it) →
      validate_aux names i l = .ok ()
  | [], _, _ => rfl
  | item :: rest, i, h => by
    have hh := h item (List.mem_cons_self item rest)
    have ht := validate_aux_ok (l := rest) (i := i + 1)
      (fun it hit => h it (List.mem_cons_of_mem item hit))
    simp [validate_aux, hh.1, hh.2, ht]

theorem validate_aux_append {names : List String} :
    ∀ {pre : List OverrideItem} (rest : List OverrideItem) {i : Nat},
      (∀ it ∈ pre, entryOk names it) →
      validate_aux names i (pre ++ rest) = validate_aux names (i + pre.length) rest
  | [], rest, i, _ => by simp
  | p :: ps, rest, i, h => by
    have hh := h p (List.mem_cons_self p ps)
    have ht := @validate_aux_append names ps rest (i + 1)
      (fun it hit => h it (List.mem_cons_of_mem p hit))
    have harith : i + (p :: ps).length = i + 1 + ps.length := by
      simp [List.length_cons]; omega
    rw [harith]
    simpa [validate_aux, hh.1, hh.2] using ht

theorem convEntry_none_of_falsy {it : OverrideItem}
    (h : envTruthy it.environment = false) : convEntry it = none := by
  rcases it with ⟨tgt, env⟩
  rcases env with _ | ⟨xs⟩ | b
  · rcases tgt with _ | t <;> rfl
  · rcases tgt with _ | t
    · rfl
    · have : xs.isEmpty = true := by
        simpa [envTruthy] using h
      simp [convEntry, this]
  · rcases tgt with _ | t <;> rfl

theorem build_aux_good :
    ∀ {l : List OverrideItem} {i : Nat}, (∀ it ∈ l, goodItem it) →
      build_aux i l = .ok (l.filterMap convEntry)
  | [], _, _ => rfl
  | item :: rest, i, h => by
    have hh := h item (List.mem_cons_self item rest)
    have ht := build_aux_good (i := i + 1)
      (fun it hit => h it (List.mem_cons_of_mem item hit))
    obtain ⟨t, htgt⟩ := Option.isSome_iff_exists.mp hh.1
    rcases henv : item.environment with _ | ⟨xs⟩ | b
    · simp [build_aux, htgt, henv, envTruthy, ht, convEntry, List.filterMap_cons]
    · by_cases hxs : xs.isEmpty
      · simp [build_aux, htgt, henv, envTruthy, hxs, ht, convEntry, List.filterMap_cons]
      · simp [build_aux, htgt, henv, envTruthy, hxs, ht, convEntry, List.filterMap_cons]
    · have hb : b = false := by
        rcases b with _ | _
        · rfl
        · exact absurd henv hh.2
      subst hb
      simp [build_aux, htgt, henv, envTruthy, ht, convEntry, List.filterMap_cons]

theorem build_aux_error_append {tgt : String} {item : OverrideItem}
    (htgt : item.target_container_name = some tgt) (hbad : envBad item) :
    ∀ {pre : List OverrideItem} (post : List OverrideItem) {i : Nat},
      (∀ it ∈ pre, goodItem it) →
      build_aux i (pre ++ item :: post) = .error (envNotArrayMsg (i + pre.length))
  | [], post, i, _ => by
    have hb : item.environment = some (EnvVal.other true) := hbad
    simp [build_aux, htgt, hb, envTruthy]
  | p :: ps, post, i, h => by
    have hh := h p (List.mem_cons_self p ps)
    have ht := @build_aux_error_append tgt item htgt hbad ps post (i + 1)
      (fun it hit => h it (List.mem_cons_of_mem p hit))
    obtain ⟨t, hpt⟩ := Option.isSome_iff_exists.mp hh.1
    have harith : i + (p :: ps).length = i + 1 + ps.length := by
      simp [List.length_cons]; omega
    rw [harith]
    rcases henv : p.environment with _ | ⟨xs⟩ | b
    · simpa [build_aux, hpt, henv, envTruthy] using ht
    · by_cases hxs : xs.isEmpty
      · simpa [build_aux, hpt, henv, envTruthy, hxs] using ht
      · simp [build_aux, hpt, henv, envTruthy, hxs, ht]
    · have hb : b = false := by
        rcases b with _ | _
        · rfl
        · exact absurd henv hh.2
      subst hb
      simpa [build_aux, hpt, henv, envTruthy] using ht

theorem env_removeKey_ne (e : Env) {n k : String} (h : n ≠ k) (d : Option String) :
    env (removeKey e k) n d = env e n d := by
  simp [env, removeKey, h]

theorem pystrip_of_all_ws {v : String} (h : v.data.all Char.isWhitespace = true) :
    pystrip v = "" := by
  have h' : v.data.dropWhile Char.isWhitespace = [] :=
    List.dropWhile_eq_nil_iff.mpr (fun x hx => by
      simpa using List.all_eq_true.mp h x hx)
  show String.mk (pytrimChars v.data) = ""
  rw [show pytrimChars v.data = [] by simp [pytrimChars, h']]

theorem containsStr_mid (p t s : String) : containsStr t (p ++ t ++ s) :=
  ⟨p.data, s.data, by simp [sdata_append]⟩

-- -------------------------
-- Claims
-- -------------------------

/-- C2, counterexample: with the primary key `subnets` set to the empty string
and the legacy `subnet_id` set to a non-empty subnet list, the claim says the
legacy value is used; the code instead keeps the primary's empty value and
`load_network` dies with the no-subnets error, never reading the legacy key. -/
theorem C2_counterexample :
    envPrimaryEmpty "subnets" = some "" ∧
    envPrimaryEmpty "subnet_id" = some "subnet-aaa" ∧
    split_csv (env envPrimaryEmpty "subnet_id" (some "")) = ["subnet-aaa"] ∧
    load_network envPrimaryEmpty =
      .error "❌ No subnets provided. Set 'subnets' or legacy 'subnet_id'." :=
  ⟨rfl, rfl, rfl, rfl⟩

/-- C2, amended: the resolver's alias lookup is first-PRESENT-wins, not
first-non-empty-wins: whenever the primary key (`subnets` /
`security_groups`) is set, its stripped value is used — even when empty — and
the legacy singular key (`subnet_id` / `sg_id`) is consulted only when the
primary key is absent from the environment. -/
theorem C2_first_present_wins (e : Env) (v : String) :
    (e "subnets" = some v → subnets_raw e = some (pystrip v)) ∧
    (e "subnets" = none → subnets_raw e = env e "subnet_id" (some "")) ∧
    (e "security_groups" = some v → sgs_raw e = some (pystrip v)) ∧
    (e "security_groups" = none → sgs_raw e = env e "sg_id" (some "")) := by
  refine ⟨?_, ?_, ?_, ?_⟩ <;> intro h <;> simp [subnets_raw, sgs_raw, env, h]

/-- C2, witness: `C2_first_present_wins` applied to an environment with both
primary and legacy keys set, and to one with only the legacy keys set. -/
theorem C2_witness :
    subnets_raw envPrimarySet = some (pystrip " subnet-a ") ∧
    subnets_raw envLegacyOnly = env envLegacyOnly "subnet_id" (some "") ∧
    sgs_raw envPrimarySet = some (pystrip "sg-a") ∧
    sgs_raw envLegacyOnly = env envLegacyOnly "sg_id" (some "") :=
  ⟨(C2_first_present_wins envPrimarySet " subnet-a ").1 rfl,
   (C2_first_present_wins envLegacyOnly "").2.1 rfl,
   (C2_first_present_wins envPrimarySet "sg-a").2.2.1 rfl,
   (C2_first_present_wins envLegacyOnly "").2.2.2 rfl⟩

/-- C3: `summarize` classifies every raw response into exactly one outcome:
non-empty `tasks` gives `Started` and exit code 0 regardless of `failures`;
otherwise non-empty `failures` gives `Failed`, written to the error stream
with exit code 1; otherwise the raw response is the `Unknown` outcome with
exit code 0 (no crash). -/
theorem C3_summarize_trichotomy (resp : RunResponse) :
    (resp.tasks ≠ [] →
      summarize resp = .started (resp.tasks.map mkTaskSummary) ∧
      exitCode (summarize resp) = 0) ∧
    (resp.tasks = [] → resp.failures ≠ [] →
      summarize resp = .failed resp.failures ∧
      exitCode (summarize resp) = 1 ∧
      errStream (summarize resp) = some resp.failures) ∧
    (resp.tasks = [] → resp.failures = [] →
      summarize resp = .unknown resp ∧ exitCode (summarize resp) = 0) := by
  refine ⟨?_, ?_, ?_⟩
  · intro h
    have e1 : resp.tasks.isEmpty = false := by
      simpa [List.isEmpty_iff] using h
    simp [summarize, e1, exitCode]
  · intro h1 h2
    have e1 : resp.tasks.isEmpty = true := by simp [List.isEmpty_iff, h1]
    have e2 : resp.failures.isEmpty = false := by
      simpa [List.isEmpty_iff] using h2
    simp [summarize, e1, e2, exitCode, errStream]
  · intro h1 h2
    simp [summarize, List.isEmpty_iff, h1, h2, exitCode]

/-- C3, witness: `C3_summarize_trichotomy` applied to scenario D's mixed
response (one task, one failure — `Started`, exit 0), a failures-only
response (`Failed`, exit 1, failures on the error stream), and an empty
response (`Unknown`, exit 0). -/
theorem C3_witness :
    (summarize respMixed = .started (respMixed.tasks.map mkTaskSummary) ∧
      exitCode (summarize respMixed) = 0) ∧
    (summarize respFailed = .failed respFailed.failures ∧
      exitCode (summarize respFailed) = 1 ∧
      errStream (summarize respFailed) = some respFailed.failures) ∧
    (summarize respEmpty = .unknown respEmpty ∧ exitCode (summarize respEmpty) = 0) :=
  ⟨(C3_summarize_trichotomy respMixed).1 (by decide),
   (C3_summarize_trichotomy respFailed).2.1 rfl (by decide),
   (C3_summarize_trichotomy respEmpty).2.2 rfl rfl⟩

/-- C5: whenever two required keys (possibly the same) are absent or empty,
`load_required` fails with one error message that names each of them — all
missing keys are reported at once. -/
theorem C5_missing_required_all_named (e : Env) (k1 k2 : String)
    (h1 : k1 ∈ required_env_vars) (h2 : k2 ∈ required_env_vars)
    (m1 : truthyStr (env e k1 none) = false) (m2 : truthyStr (env e k2 none) = false) :
    load_required e =
      .error ("❌ Missing required env vars: " ++ joinComma (missing_required e)) ∧
    containsStr k1 ("❌ Missing required env vars: " ++ joinComma (missing_required e)) ∧
    containsStr k2 ("❌ Missing required env vars: " ++ joinComma (missing_required e)) := by
  have mem1 : k1 ∈ missing_required e := List.mem_filter.mpr ⟨h1, by simp [m1]⟩
  have mem2 : k2 ∈ missing_required e := List.mem_filter.mpr ⟨h2, by simp [m2]⟩
  have hne : (missing_required e).isEmpty = false := by
    simpa [List.isEmpty_iff] using List.ne_nil_of_mem mem1
  refine ⟨by simp [load_required, hne], ?_, ?_⟩
  · exact containsStr_append_left _ _ _ (mem_joinComma mem1)
  · exact containsStr_append_left _ _ _ (mem_joinComma mem2)

/-- C5, witness: `C5_missing_required_all_named` applied to an environment
where only `aws_region` is set: the one error names both
`task_definition_name` and `ecs_cluster_name`. -/
theorem C5_witness :
    load_required envRegionOnly =
      .error ("❌ Missing required env vars: " ++ joinComma (missing_required envRegionOnly)) ∧
    containsStr "task_definition_name"
      ("❌ Missing required env vars: " ++ joinComma (missing_required envRegionOnly)) ∧
    containsStr "ecs_cluster_name"
      ("❌ Missing required env vars: " ++ joinComma (missing_required envRegionOnly)) :=
  C5_missing_required_all_named envRegionOnly "task_definition_name" "ecs_cluster_name"
    (by decide) (by decide) (by decide) (by decide)

/-- C6, counterexample: `split_csv` is not per-entry trimming — it deletes
every space, interior ones included: on `"a b,c"` the code yields
`["ab","c"]` while the claimed trimming semantics yields `["a b","c"]`. -/
theorem C6_counterexample :
    split_csv (some "a b,c") = ["ab", "c"] ∧
    split_csv_spec (some "a b,c") = ["a b", "c"] ∧
    split_csv (some "a b,c") ≠ split_csv_spec (some "a b,c") := by
  decide

/-- C6, amended: `split_csv` removes every space character (not just
leading/trailing whitespace) and discards empty entries, so any two inputs
with the same space-free character sequence parse identically; in particular
`"a, b ,c"` and `"a,b,c"` both yield `["a","b","c"]`. -/
theorem C6_space_insensitive (s t : Option String)
    (h : removeSpaces (s.getD "").data = removeSpaces (t.getD "").data) :
    split_csv s = split_csv t ∧
    split_csv (some "a, b ,c") = ["a", "b", "c"] ∧
    split_csv (some "a,b,c") = ["a", "b", "c"] := by
  refine ⟨?_, by decide, by decide⟩
  simp only [split_csv, h]

/-- C6, witness: `C6_space_insensitive` applied to the spec's example pair. -/
theorem C6_witness :
    split_csv (some "a, b ,c") = split_csv (some "a,b,c") ∧
    split_csv (some "a, b ,c") = ["a", "b", "c"] ∧
    split_csv (some "a,b,c") = ["a", "b", "c"] :=
  ⟨(C6_space_insensitive (some "a, b ,c") (some "a,b,c") (by decide)).1,
   (C6_space_insensitive (some "a, b ,c") (some "a,b,c") (by decide)).2.1,
   (C6_space_insensitive (some "a, b ,c") (some "a,b,c") (by decide)).2.2⟩

/-- C7, counterexample: `assign_public_ip` set to the empty string does not
case-insensitively normalize to `ENABLED` or `DISABLED`, yet configuration
resolution does not fail — it succeeds with the default `DISABLED`. -/
theorem C7_counterexample :
    envAssignEmpty "assign_public_ip" = some "" ∧
    pyupper (pystrip "") ≠ "ENABLED" ∧
    pyupper (pystrip "") ≠ "DISABLED" ∧
    load_network envAssignEmpty =
      .ok { subnets := ["s"], sgs := ["g"], assign := "DISABLED" } :=
  ⟨rfl, by decide, by decide, rfl⟩

/-- C7, amended: `assignPublicIp` defaults to `DISABLED` when the key is
absent; a set value that is non-empty after stripping is normalized by
uppercasing (so `enabled`/`Enabled`/`ENABLED` all resolve to `ENABLED`), and
when that normalization yields neither `ENABLED` nor `DISABLED`,
`load_network` fails; a value that strips to the empty string instead falls
back to the `DISABLED` default. -/
theorem C7_assign_normalization (e : Env) (v : String) :
    (e "assign_public_ip" = none → assign_resolved e = "DISABLED") ∧
    (e "assign_public_ip" = some v → pystrip v ≠ "" →
      assign_resolved e = pyupper (pystrip v)) ∧
    (e "assign_public_ip" = some v → pystrip v ≠ "" →
      assign_resolved e ≠ "ENABLED" → assign_resolved e ≠ "DISABLED" →
      load_network e = .error "❌ assign_public_ip must be ENABLED or DISABLED") := by
  refine ⟨?_, ?_, ?_⟩
  · intro h
    simp [assign_resolved, env, h, pyOr]
    decide
  · intro h hne
    simp [assign_resolved, env, h, pyOr, hne]
  · intro h hne h1 h2
    simp only [load_network]
    rw [if_pos ⟨h1, h2⟩]

/-- C7, witness: `C7_assign_normalization` applied to a mixed-case `Enabled`
(resolves to `ENABLED`), an absent key (default `DISABLED`), and the
non-normalizing value `sometimes` (`load_network` fails). -/
theorem C7_witness :
    assign_resolved envAssignMixed = pyupper (pystrip "Enabled") ∧
    pyupper (pystrip "Enabled") = "ENABLED" ∧
    assign_resolved envLegacyOnly = "DISABLED" ∧
    load_network envAssignBogus =
      .error "❌ assign_public_ip must be ENABLED or DISABLED" :=
  ⟨(C7_assign_normalization envAssignMixed "Enabled").2.1 rfl (by decide),
   by decide,
   (C7_assign_normalization envLegacyOnly "").1 rfl,
   (C7_assign_normalization envAssignBogus "sometimes").2.2 rfl (by decide)
     (by decide) (by decide)⟩

/-- C8: an override entry whose `target_container_name` is absent or empty
makes `validate_overrides_targets` fail — provided the entries before it pass
both checks — with an error carrying the entry's 1-based index. -/
theorem C8_missing_target_indexed (td : TaskDefinition)
    (pre post : List OverrideItem) (item : OverrideItem)
    (hpre : ∀ it ∈ pre, entryOk (containerNames td) it)
    (hmiss : item.target_container_name.getD "" = "") :
    validate_overrides_targets td (pre ++ item :: post) =
      .error (missingTargetMsg (pre.length + 1)) ∧
    containsStr (toString (pre.length + 1)) (missingTargetMsg (pre.length + 1)) := by
  constructor
  · show validate_aux (containerNames td) 1 (pre ++ item :: post) = _
    rw [validate_aux_append (item :: post) hpre,
      show (1 : Nat) + pre.length = pre.length + 1 from Nat.add_comm 1 pre.length]
    simp [validate_aux, hmiss]
  · show containsStr _
      ("❌ overrides[" ++ toString (pre.length + 1) ++ "] missing 'target_container_name'")
    exact containsStr_mid _ _ _

/-- C8, witness: `C8_missing_target_indexed` applied to a one-entry override
list whose entry has no `target_container_name` key: validation fails with
the index-1 message. -/
theorem C8_witness :
    validate_overrides_targets tdWeb ovNoTarget = .error (missingTargetMsg 1) ∧
    containsStr (toString (1 : Nat)) (missingTargetMsg 1) :=
  C8_missing_target_indexed tdWeb [] []
    { target_container_name := none, environment := none } (by simp) rfl

/-- C9: an `assign_public_ip` value that is empty or whitespace-only resolves
exactly as an absent key: the placement value is the default `DISABLED` and
`load_network` behaves identically to the key being unset (in particular it
does not fail on account of that value). -/
theorem C9_blank_assign_is_default (e : Env) (v : String)
    (hv : e "assign_public_ip" = some v)
    (hws : v.data.all Char.isWhitespace = true) :
    assign_resolved e = "DISABLED" ∧
    load_network e = load_network (removeKey e "assign_public_ip") := by
  have hstrip : pystrip v = "" := pystrip_of_all_ws hws
  have ha : assign_resolved e = "DISABLED" := by
    simp [assign_resolved, env, hv, hstrip, pyOr]
    decide
  have ha' : assign_resolved (removeKey e "assign_public_ip") = "DISABLED" := by
    simp [assign_resolved, env, removeKey, pyOr]
    decide
  have hs : subnets_raw (removeKey e "assign_public_ip") = subnets_raw e := by
    simp only [subnets_raw]
    rw [env_removeKey_ne e (by decide), env_removeKey_ne e (by decide)]
  have hg : sgs_raw (removeKey e "assign_public_ip") = sgs_raw e := by
    simp only [sgs_raw]
    rw [env_removeKey_ne e (by decide), env_removeKey_ne e (by decide)]
  exact ⟨ha, by simp only [load_network, ha, ha', hs, hg]⟩

/-- C9, witness: `C9_blank_assign_is_default` applied to an environment
whose `assign_public_ip` is three spaces. -/
theorem C9_witness :
    assign_resolved envAssignBlank = "DISABLED" ∧
    load_network envAssignBlank =
      load_network (removeKey envAssignBlank "assign_public_ip") :=
  C9_blank_assign_is_default envAssignBlank "   " rfl (by decide)

/-- C1, counterexample: an override list whose single entry has no
`environment` is emptied by the merger, yet the submitted params carry an
`overrides` field with `containerOverrides = []` — the field is present as an
empty list, not absent as the claim states. -/
theorem C1_counterexample :
    build_ecs_overrides ovNoEnv = .ok (some { containerOverrides := [] }) ∧
    (pipelineParams tdWeb netSimple ovNoEnv "my-cluster" "my-task").map
      RunParams.overrides = .ok (some { containerOverrides := [] }) ∧
    (run_task_params "my-cluster" "my-task"
      (build_network_configuration netSimple.subnets netSimple.sgs netSimple.assign)
      (some { containerOverrides := [] })).overrides ≠ none :=
  ⟨rfl, rfl, by decide⟩

/-- C1, amended: entries whose `environment` is empty or absent are excluded
from the built `containerOverrides`; the launch request omits the overrides
field only when the source override list itself is empty — when a non-empty
list is emptied by the exclusion, the request carries an `overrides` field
whose `containerOverrides` is the empty list. -/
theorem C1_empty_env_entries (td : TaskDefinition) (net : NetworkResolved)
    (ov : List OverrideItem) (cluster task_def : String)
    (hval : ∀ it ∈ ov, entryOk (containerNames td) it)
    (hgood : ∀ it ∈ ov, ¬ envBad it) :
    pipelineParams td net ov cluster task_def =
      .ok (run_task_params cluster task_def
        (build_network_configuration net.subnets net.sgs net.assign)
        (if ov.isEmpty then none
         else some { containerOverrides := ov.filterMap convEntry })) ∧
    (∀ it ∈ ov, envTruthy it.environment = false → convEntry it = none) ∧
    ((ov.isEmpty = false ∧ ∀ it ∈ ov, envTruthy it.environment = false) →
      (pipelineParams td net ov cluster task_def).map RunParams.overrides =
        .ok (some { containerOverrides := [] })) := by
  have hgood' : ∀ it ∈ ov, goodItem it := by
    intro it hit
    refine ⟨?_, hgood it hit⟩
    have h1 := (hval it hit).1
    cases htc : it.target_container_name with
    | none => exact absurd (by simp [htc]) h1
    | some t => rfl
  have hmain : pipelineParams td net ov cluster task_def =
      .ok (run_task_params cluster task_def
        (build_network_configuration net.subnets net.sgs net.assign)
        (if ov.isEmpty then none
         else some { containerOverrides := ov.filterMap convEntry })) := by
    by_cases hemp : ov.isEmpty
    · have : ov = [] := List.isEmpty_iff.mp hemp
      subst this
      simp [pipelineParams, build_ecs_overrides]
    · have hemp' : ov.isEmpty = false := by simpa using hemp
      have hv : validate_overrides_targets td ov = .ok () := validate_aux_ok hval
      have hb : build_aux 1 ov = .ok (ov.filterMap convEntry) := build_aux_good hgood'
      simp [pipelineParams, hemp', hv, build_ecs_overrides, hb]
  refine ⟨hmain, fun it _ h => convEntry_none_of_falsy h, ?_⟩
  rintro ⟨hne, hall⟩
  have hfm : ov.filterMap convEntry = [] :=
    List.filterMap_eq_nil_iff.mpr (fun it hit => convEntry_none_of_falsy (hall it hit))
  rw [hmain, hfm, hne]
  simp [run_task_params, Except.map]

/-- C1, witness: `C1_empty_env_entries` applied to a one-entry override list
with no `environment`: the params carry `overrides.containerOverrides = []`. -/
theorem C1_witness :
    pipelineParams tdWeb netSimple ovNoEnv "my-cluster" "my-task" =
      .ok (run_task_params "my-cluster" "my-task"
        (build_network_configuration netSimple.subnets netSimple.sgs netSimple.assign)
        (some { containerOverrides := [] })) ∧
    (pipelineParams tdWeb netSimple ovNoEnv "my-cluster" "my-task").map
      RunParams.overrides = .ok (some { containerOverrides := [] }) :=
  ⟨(C1_empty_env_entries tdWeb netSimple ovNoEnv "my-cluster" "my-task"
      (by decide) (by decide)).1,
   (C1_empty_env_entries tdWeb netSimple ovNoEnv "my-cluster" "my-task"
      (by decide) (by decide)).2.2 ⟨rfl, by decide⟩⟩

/-- C4: an override entry whose target is not among the task definition's
container names — with the entries before it passing validation — halts the
pipeline with an error that names the offending target and lists the known
container names, and no `run_task` params are ever produced: the launch call
is never invoked. -/
theorem C4_unknown_target_halts (td : TaskDefinition) (net : NetworkResolved)
    (cluster task_def : String) (pre post : List OverrideItem)
    (item : OverrideItem) (tgt : String)
    (hpre : ∀ it ∈ pre, entryOk (containerNames td) it)
    (htgt : item.target_container_name = some tgt) (hne : tgt ≠ "")
    (hnot : tgt ∉ containerNames td) :
    pipelineParams td net (pre ++ item :: post) cluster task_def =
      .error (unknownTargetMsg tgt (containerNames td)) ∧
    containsStr tgt (unknownTargetMsg tgt (containerNames td)) ∧
    (∀ n ∈ containerNames td, containsStr n (unknownTargetMsg tgt (containerNames td))) ∧
    (∀ p, pipelineParams td net (pre ++ item :: post) cluster task_def ≠ .ok p) := by
  have hval : validate_overrides_targets td (pre ++ item :: post) =
      .error (unknownTargetMsg tgt (containerNames td)) := by
    show validate_aux (containerNames td) 1 (pre ++ item :: post) = _
    rw [validate_aux_append (item :: post) hpre]
    simp [validate_aux, htgt, hne, hnot]
  have hemp : (pre ++ item :: post).isEmpty = false := by cases pre <;> rfl
  have hpp : pipelineParams td net (pre ++ item :: post) cluster task_def =
      .error (unknownTargetMsg tgt (containerNames td)) := by
    simp [pipelineParams, hemp, hval]
  refine ⟨hpp, ?_, ?_, ?_⟩
  · show containsStr tgt ("❌ target_container_name '" ++
      (tgt ++ ("' not found in task definition containers: " ++
        joinComma (sortStr (dedupStr (containerNames td))))))
    exact containsStr_append_left _ _ _
      (containsStr_append_right _ _ _ (containsStr_self tgt))
  · intro n hn
    show containsStr n ("❌ target_container_name '" ++
      (tgt ++ ("' not found in task definition containers: " ++
        joinComma (sortStr (dedupStr (containerNames td))))))
    exact containsStr_append_left _ _ _ (containsStr_append_left _ _ _
      (containsStr_append_left _ _ _ (mem_joinComma (mem_sortStr (mem_dedupStr hn)))))
  · intro p h
    rw [hpp] at h
    exact Except.noConfusion h

/-- C4, witness: `C4_unknown_target_halts` instantiated to scenario B:
overrides target `sidecar`, the task definition declares `web` and
`sidecar2`; the pipeline halts before any launch params exist. -/
theorem C4_witness :
    pipelineParams tdScenarioB netSimple ovScenarioB "my-cluster" "my-task" =
      .error (unknownTargetMsg "sidecar" (containerNames tdScenarioB)) ∧
    containsStr "sidecar" (unknownTargetMsg "sidecar" (containerNames tdScenarioB)) ∧
    containsStr "web" (unknownTargetMsg "sidecar" (containerNames tdScenarioB)) ∧
    containsStr "sidecar2" (unknownTargetMsg "sidecar" (containerNames tdScenarioB)) :=
  ⟨(C4_unknown_target_halts tdScenarioB netSimple "my-cluster" "my-task" [] []
      { target_container_name := some "sidecar",
        environment := some (.list [{ name := "DEBUG", value := "true" }]) }
      "sidecar" (by simp) rfl (by decide) (by decide)).1,
   (C4_unknown_target_halts tdScenarioB netSimple "my-cluster" "my-task" [] []
      { target_container_name := some "sidecar",
        environment := some (.list [{ name := "DEBUG", value := "true" }]) }
      "sidecar" (by simp) rfl (by decide) (by decide)).2.1,
   (C4_unknown_target_halts tdScenarioB netSimple "my-cluster" "my-task" [] []
      { target_container_name := some "sidecar",
        environment := some (.list [{ name := "DEBUG", value := "true" }]) }
      "sidecar" (by simp) rfl (by decide) (by decide)).2.2.1 "web" (by decide),
   (C4_unknown_target_halts tdScenarioB netSimple "my-cluster" "my-task" [] []
      { target_container_name := some "sidecar",
        environment := some (.list [{ name := "DEBUG", value := "true" }]) }
      "sidecar" (by simp) rfl (by decide) (by decide)).2.2.1 "sidecar2" (by decide)⟩

/-- C10: an override entry whose `environment` is present, truthy and not a
list makes `build_ecs_overrides` fail — with the entries before it raising
nothing — naming the entry's 1-based index; and when no entry is of that
shape, the build succeeds and every entry with a falsy `environment` (absent,
empty list, falsy non-list) is silently dropped. -/
theorem C10_bad_env_indexed :
    (∀ (pre post : List OverrideItem) (item : OverrideItem) (tgt : String),
      (∀ it ∈ pre, goodItem it) → item.target_container_name = some tgt →
      envBad item →
      build_ecs_overrides (pre ++ item :: post) =
        .error (envNotArrayMsg (pre.length + 1)) ∧
      containsStr (toString (pre.length + 1)) (envNotArrayMsg (pre.length + 1))) ∧
    (∀ ov : List OverrideItem, (∀ it ∈ ov, goodItem it) →
      build_ecs_overrides ov =
        .ok (if ov.isEmpty then none
             else some { containerOverrides := ov.filterMap convEntry }) ∧
      ∀ it ∈ ov, envTruthy it.environment = false → convEntry it = none) := by
  constructor
  · intro pre post item tgt hpre htgt hbad
    have hemp : (pre ++ item :: post).isEmpty = false := by cases pre <;> rfl
    have herr := build_aux_error_append htgt hbad post hpre (i := 1)
    rw [show (1 : Nat) + pre.length = pre.length + 1 from Nat.add_comm 1 pre.length] at herr
    constructor
    · simp [build_ecs_overrides, hemp, herr]
    · show containsStr _
        ("❌ overrides[" ++ toString (pre.length + 1) ++ "].environment must be an array")
      exact containsStr_mid _ _ _
  · intro ov hgood
    constructor
    · by_cases hemp : ov.isEmpty
      · have : ov = [] := List.isEmpty_iff.mp hemp
        subst this
        simp [build_ecs_overrides]
      · have hemp' : ov.isEmpty = false := by simpa using hemp
        simp [build_ecs_overrides, hemp', build_aux_good hgood]
    · exact fun it _ h => convEntry_none_of_falsy h

/-- C10, witness: `C10_bad_env_indexed` applied to a one-entry list whose
`environment` is a truthy non-list (build fails with the index-1 message) and
to a two-entry list whose first entry has no `environment` (it is dropped,
the second is kept). -/
theorem C10_witness :
    build_ecs_overrides ovBadEnv = .error (envNotArrayMsg 1) ∧
    containsStr (toString (1 : Nat)) (envNotArrayMsg 1) ∧
    build_ecs_overrides ovMixed =
      .ok (some { containerOverrides :=
        [{ name := "web", environment := [{ name := "DEBUG", value := "true" }] }] }) :=
  ⟨(C10_bad_env_indexed.1 [] []
      { target_container_name := some "web", environment := some (.other true) }
      "web" (by simp) rfl rfl).1,
   (C10_bad_env_indexed.1 [] []
      { target_container_name := some "web", environment := some (.other true) }
      "web" (by simp) rfl rfl).2,
   (C10_bad_env_indexed.2 ovMixed (by decide)).1⟩
